import Mathlib

/-!
Shallow embedding of the Product entity-store component
(`service/models.py` of the products CRUD service).

Modelling conventions:

* A Python runtime value is a `PyValue` (`None`, `bool`, `int`, `float`,
  `str`); Python floats are modelled as rationals, which is exact for the
  decimal literals the service handles.
* A SQLAlchemy-mapped object attribute is an `Option PyValue`: `none`
  means the attribute was never assigned (a mapped attribute that was
  never set reads as Python `None`, but at INSERT time an unset column
  receives its column default, while a column explicitly set to `None`
  stores SQL NULL).  `attrGet` is a Python attribute read.
* A Python dict is an association list `PyDict`; `dictGet` is `d[k]`
  up to the raised `KeyError` (`Option`), `pyGet` is `d.get(k)`.
* The database table is a `Db := List Product` of flushed rows.
  SQL equality (`sqlEq`) follows the engine: NULL compares equal to
  nothing except under an explicit IS NULL (`column == None`), numeric
  values (bool/int/float) compare numerically, strings structurally.
* Raised exceptions become explicit results: a mutating method on the
  entity returns the entity state at the moment the exception escapes
  together with the error (`Product × Option PyError`), so partial
  mutation before a raise stays observable.
-/

inductive PyValue where
  | none : PyValue
  | bool (b : Bool) : PyValue
  | int (n : Int) : PyValue
  | float (q : Rat) : PyValue
  | str (s : String) : PyValue
  deriving DecidableEq, Repr

/-- Python truthiness (`bool(v)`): `None`, `False`, `0`, `0.0` and `""`
are falsy, everything else is truthy. -/
def PyValue.truthy : PyValue → Bool
  | PyValue.none => false
  | PyValue.bool b => b
  | PyValue.int n => n != 0
  | PyValue.float q => q != 0
  | PyValue.str s => s != ""

/-- The name of a Python value's type, as used in error messages built
from `type(v)` (rendered without the class wrapper). -/
def PyValue.typeName : PyValue → String
  | PyValue.none => "NoneType"
  | PyValue.bool _ => "bool"
  | PyValue.int _ => "int"
  | PyValue.float _ => "float"
  | PyValue.str _ => "str"

/-- Python `float(v)`: defined on numbers and booleans, a `ValueError`
or `TypeError` (here: `Option.none`) otherwise. -/
def PyValue.toFloat? : PyValue → Option Rat
  | PyValue.bool b => some (if b then 1 else 0)
  | PyValue.int n => some (n : Rat)
  | PyValue.float q => some q
  | _ => Option.none

/-- The numeric view a SQL engine takes of a stored value: booleans are
0/1, ints and floats are their value, non-numbers have no numeric view. -/
def PyValue.asNum? : PyValue → Option Rat
  | PyValue.bool b => some (if b then 1 else 0)
  | PyValue.int n => some (n : Rat)
  | PyValue.float q => some q
  | _ => Option.none

/-- SQL equality as generated by the query builder for `column == value`.
NULL on either side yields no match, except that comparing NULL with a
Python `None` argument is rendered as IS NULL.  Numeric values compare
numerically (so a stored boolean matches 0/1 and ints match floats),
other values compare structurally. -/
def sqlEq (stored arg : PyValue) : Bool :=
  match stored, arg with
  | PyValue.none, PyValue.none => true
  | PyValue.none, _ => false
  | _, PyValue.none => false
  | a, b =>
    match a.asNum?, b.asNum? with
    | some x, some y => x == y
    | _, _ => a == b

/-- A Python dict, as an association list with distinct keys. -/
abbrev PyDict := List (String × PyValue)

/-- `d[k]` as an `Option`: `Option.none` is the raised `KeyError`. -/
def dictGet (d : PyDict) (k : String) : Option PyValue :=
  (d.find? (fun p => p.1 == k)).map Prod.snd

/-- `d.get(k)`: a missing key reads as Python `None`. -/
def pyGet (d : PyDict) (k : String) : PyValue :=
  (dictGet d k).getD PyValue.none

/-- The errors the component raises. -/
inductive PyError where
  | dataValidation (msg : String) : PyError
  | typeError (msg : String) : PyError
  | valueError (msg : String) : PyError
  deriving DecidableEq, Repr

instance {ε α : Type} [DecidableEq ε] [DecidableEq α] : DecidableEq (Except ε α) :=
  fun a b =>
    match a, b with
    | Except.error e, Except.error f =>
      if h : e = f then isTrue (by rw [h])
      else isFalse (fun hc => h (Except.error.inj hc))
    | Except.ok x, Except.ok y =>
      if h : x = y then isTrue (by rw [h])
      else isFalse (fun hc => h (Except.ok.inj hc))
    | Except.error _, Except.ok _ => isFalse (fun hc => Except.noConfusion hc)
    | Except.ok _, Except.error _ => isFalse (fun hc => Except.noConfusion hc)

/-- The `Product` mapped class: columns `id` (Integer primary key),
`name` (String(63) not null), `description` (String(255) nullable),
`price` (Float nullable), `available` (Boolean, column default True).
Each field is the state of the mapped attribute: `none` = never set. -/
structure Product where
  id : Option PyValue := Option.none
  name : Option PyValue := Option.none
  description : Option PyValue := Option.none
  price : Option PyValue := Option.none
  available : Option PyValue := Option.none
  deriving DecidableEq, Repr

/-- A Python attribute read: an unset mapped attribute reads as `None`. -/
def attrGet (a : Option PyValue) : PyValue := a.getD PyValue.none

/-- The database table: the list of flushed rows. -/
abbrev Db := List Product

/-- `Product(**kwargs)`: the declarative constructor assigns exactly the
supplied keyword arguments; every other mapped attribute stays unset.
Python-side column defaults (`available=True`) are NOT applied here —
SQLAlchemy applies them at INSERT flush time. -/
def Product.construct (kwargs : PyDict) : Product :=
  { id := dictGet kwargs "id"
    name := dictGet kwargs "name"
    description := dictGet kwargs "description"
    price := dictGet kwargs "price"
    available := dictGet kwargs "available" }

/-- `serialize()`: the dictionary with exactly the keys
`id`, `name`, `description`, `price`, `available`, values read verbatim
from the attributes. -/
def Product.serialize (p : Product) : PyDict :=
  [("id", attrGet p.id),
   ("name", attrGet p.name),
   ("description", attrGet p.description),
   ("price", attrGet p.price),
   ("available", attrGet p.available)]

/-- The argument of `deserialize(data)`: either a mapping or some
non-mapping value (on which any `data[key]` subscript raises
`TypeError`). -/
inductive DeserializeInput where
  | mapping (m : PyDict) : DeserializeInput
  | notMapping : DeserializeInput
  deriving DecidableEq

/-- `deserialize(data)`: assigns `name`, `description`, `available`
(only after an `isinstance(..., bool)` check), then `price`, in that
order; a `KeyError` is reported as a missing-key `DataValidationError`
and a non-boolean `available` as a type `DataValidationError`.  The
returned `Product` is the state of `self` when the call ends, so on an
error it keeps the assignments already made. -/
def Product.deserialize (p : Product) (data : DeserializeInput) :
    Product × Option PyError :=
  match data with
  | DeserializeInput.notMapping =>
    (p, some (PyError.dataValidation
      "Invalid product: body of request contained bad or no data"))
  | DeserializeInput.mapping m =>
    match dictGet m "name" with
    | Option.none =>
      (p, some (PyError.dataValidation "Invalid product: missing name"))
    | some nv =>
      let p1 := { p with name := some nv }
      match dictGet m "description" with
      | Option.none =>
        (p1, some (PyError.dataValidation "Invalid product: missing description"))
      | some dv =>
        let p2 := { p1 with description := some dv }
        match dictGet m "available" with
        | Option.none =>
          (p2, some (PyError.dataValidation "Invalid product: missing available"))
        | some av =>
          match av with
          | PyValue.bool b =>
            let p3 := { p2 with available := some (PyValue.bool b) }
            match dictGet m "price" with
            | Option.none =>
              (p3, some (PyError.dataValidation "Invalid product: missing price"))
            | some pv => ({ p3 with price := some pv }, Option.none)
          | _ =>
            (p2, some (PyError.dataValidation
              ("Invalid type for boolean [available]: " ++ av.typeName)))

/-- The next server-generated primary key for an INSERT. -/
def nextId (db : Db) : Int :=
  (List.foldr (fun r acc =>
    max acc (match attrGet r.id with | PyValue.int n => n | _ => 0)) 0 db) + 1

/-- `create()`: forces `self.id = None`, adds the object to the session
and commits.  The flush materialises every column: an unset `available`
receives its column default `True` (an attribute explicitly set to
`None` keeps NULL — the Python-side default fires only when no value
was supplied), the server assigns `id`, and a NULL `name` violates the
NOT NULL constraint, which surfaces as a `DataValidationError` after
rollback.  On success the refreshed object is the stored row. -/
def Product.create (p : Product) (db : Db) :
    Except PyError (Product × Db) :=
  let p0 := { p with id := some PyValue.none }
  if attrGet p0.name = PyValue.none then
    Except.error (PyError.dataValidation
      "IntegrityError: NOT NULL constraint failed: product.name")
  else
    let stored : Product :=
      { id := some (PyValue.int (nextId db))
        name := some (attrGet p0.name)
        description := some (attrGet p0.description)
        price := some (attrGet p0.price)
        available := some (match p0.available with
          | Option.none => PyValue.bool true
          | some v => v) }
    Except.ok (stored, db ++ [stored])

/-- `update()`: rejects a falsy `id` ("Update called with empty ID
field"), then rejects a `None` or negative `price` ("Price must be a
positive number"; `float(self.price)` on a non-numeric price raises
`ValueError`), then commits the staged attributes onto the row with the
same primary key.  The returned `Db` is the table after the call: on an
error nothing was committed and it is unchanged. -/
def Product.update (p : Product) (db : Db) : Db × Option PyError :=
  if (attrGet p.id).truthy = false then
    (db, some (PyError.dataValidation "Update called with empty ID field"))
  else if attrGet p.price = PyValue.none then
    (db, some (PyError.dataValidation "Price must be a positive number"))
  else
    match (attrGet p.price).toFloat? with
    | Option.none =>
      (db, some (PyError.valueError "could not convert value to float"))
    | some q =>
      if q < 0 then
        (db, some (PyError.dataValidation "Price must be a positive number"))
      else
        (List.map (fun r =>
          if sqlEq (attrGet r.id) (attrGet p.id) then p else r) db,
         Option.none)

/-- `all()`: every row of the table. -/
def Product.all (db : Db) : List Product := db

/-- `find_by_name(name)`: realized list of rows with `name == name`. -/
def Product.find_by_name (db : Db) (name : PyValue) : List Product :=
  List.filter (fun r => sqlEq (attrGet r.name) name) db

/-- `find_by_description(description)`: rows with matching description. -/
def Product.find_by_description (db : Db) (description : PyValue) :
    List Product :=
  List.filter (fun r => sqlEq (attrGet r.description) description) db

/-- `find_by_availability(available)`: raises `TypeError` unless the
argument is a boolean, else the rows with `available == available`
(a lazy query in the source; its row multiset is modelled). -/
def Product.find_by_availability (db : Db) (available : PyValue) :
    Except PyError (List Product) :=
  match available with
  | PyValue.bool _ =>
    Except.ok (List.filter (fun r => sqlEq (attrGet r.available) available) db)
  | _ =>
    Except.error (PyError.typeError "Invalid availability, must be of type boolean")

/-- `find_by_price(price)`: rows with `price == price` (lazy in the
source; its row multiset is modelled). -/
def Product.find_by_price (db : Db) (price : PyValue) : List Product :=
  List.filter (fun r => sqlEq (attrGet r.price) price) db

/-- `find_by_args(args)`: chains an equality filter for each of
`name`, `description` (guarded by truthiness of `args.get(key)`),
`available`, `price` (guarded by `args.get(key) is not None`), then
realizes the query. -/
def Product.find_by_args (db : Db) (args : PyDict) : List Product :=
  let q0 := db
  let q1 := if (pyGet args "name").truthy then
    List.filter (fun r => sqlEq (attrGet r.name) (pyGet args "name")) q0
    else q0
  let q2 := if (pyGet args "description").truthy then
    List.filter (fun r => sqlEq (attrGet r.description) (pyGet args "description")) q1
    else q1
  let q3 := if pyGet args "available" ≠ PyValue.none then
    List.filter (fun r => sqlEq (attrGet r.available) (pyGet args "available")) q2
    else q2
  let q4 := if pyGet args "price" ≠ PyValue.none then
    List.filter (fun r => sqlEq (attrGet r.price) (pyGet args "price")) q3
    else q3
  q4

/-! ### Example data (used by witnesses and counterexamples) -/

/-- Stored row: Widget, 9.99, available. -/
def wProd : Product :=
  { id := some (PyValue.int 1), name := some (PyValue.str "Widget")
    description := some (PyValue.str "A widget")
    price := some (PyValue.float (mkRat 999 100))
    available := some (PyValue.bool true) }

/-- A second stored Widget row with the same payload. -/
def wProd2 : Product :=
  { id := some (PyValue.int 2), name := some (PyValue.str "Widget")
    description := some (PyValue.str "A widget")
    price := some (PyValue.float (mkRat 999 100))
    available := some (PyValue.bool true) }

/-- Stored row: Gadget, 19.99, unavailable. -/
def gProd : Product :=
  { id := some (PyValue.int 3), name := some (PyValue.str "Gadget")
    description := some (PyValue.str "A gadget")
    price := some (PyValue.float (mkRat 1999 100))
    available := some (PyValue.bool false) }

/-- The spec's example table: two Widgets and one Gadget. -/
def exampleDb : Db := [wProd, wProd2, gProd]

/-! ### Helper lemmas -/

/-- SQL equality on two stored/bound booleans is boolean equality. -/
theorem sqlEq_bool (a c : Bool) :
    sqlEq (PyValue.bool a) (PyValue.bool c) = (a == c) := by
  cases a <;> cases c <;> decide

/-- Rows whose `available` column holds a boolean are split without loss
between the `available == True` filter and the `available == False`
filter. -/
theorem length_filter_available_split (db : Db)
    (h : ∀ r ∈ db, ∃ b, attrGet r.available = PyValue.bool b) :
    (List.filter (fun r => sqlEq (attrGet r.available) (PyValue.bool true)) db).length
      + (List.filter (fun r => sqlEq (attrGet r.available) (PyValue.bool false)) db).length
      = db.length := by
  induction db with
  | nil => simp
  | cons r t ih =>
    obtain ⟨b, hb⟩ := h r (by simp)
    have ht := ih (fun x hx => h x (by simp [hx]))
    cases b <;> simp [List.filter_cons, hb, sqlEq_bool] <;> omega

/-! ### Claim C3 -/

/-- Claim C3: for every entity whose `id` attribute reads as `None`
(no prior successful create), `update()` fails with
`DataValidationError("Update called with empty ID field")` and the
stored table is unchanged. -/
theorem update_empty_id_rejected (p : Product) (db : Db)
    (h : attrGet p.id = PyValue.none) :
    Product.update p db =
      (db, some (PyError.dataValidation "Update called with empty ID field")) := by
  simp [Product.update, h, PyValue.truthy]

/-- Witness for C3 at a concrete entity with unset `id`. -/
theorem update_empty_id_rejected_witness :
    Product.update ({ name := some (PyValue.str "x") } : Product) ([] : Db) =
      (([] : Db), some (PyError.dataValidation "Update called with empty ID field")) :=
  update_empty_id_rejected _ _ (by decide)

/-! ### Claim C9 -/

/-- Claim C9: `deserialize` leaves the entity's `id` attribute
untouched, for every entity and every input, including mappings that
contain an `"id"` key. -/
theorem deserialize_preserves_id (p : Product) (d : DeserializeInput) :
    (Product.deserialize p d).1.id = p.id := by
  rcases d with m | _
  · simp only [Product.deserialize]
    rcases dictGet m "name" with _ | nv
    · rfl
    · rcases dictGet m "description" with _ | dv
      · rfl
      · rcases dictGet m "available" with _ | av
        · rfl
        · cases av <;> first
            | rfl
            | (rcases dictGet m "price" with _ | pv <;> rfl)
  · rfl

/-! ### Claim C10 -/

/-- Claim C10: `deserialize` is not atomic on failure: on a mapping
with `name` and `description` present but a non-boolean `available`
value, the error is raised only after `name` and `description` were
overwritten, while `price` and `available` keep their prior values. -/
theorem deserialize_partial_mutation_on_bad_available
    (p : Product) (m : PyDict) (nv dv av : PyValue)
    (hn : dictGet m "name" = some nv) (hd : dictGet m "description" = some dv)
    (ha : dictGet m "available" = some av) (hb : ∀ b, av ≠ PyValue.bool b) :
    Product.deserialize p (DeserializeInput.mapping m) =
      ({ p with name := some nv, description := some dv },
       some (PyError.dataValidation
         ("Invalid type for boolean [available]: " ++ av.typeName))) := by
  cases av <;> simp_all [Product.deserialize]

/-- Witness for C10: the test suite's bad-available payload, a string
`"true"`, against the stored Widget row. -/
theorem deserialize_partial_mutation_on_bad_available_witness :
    Product.deserialize wProd (DeserializeInput.mapping
      [("name", PyValue.str "N"), ("description", PyValue.str "D"),
       ("available", PyValue.str "true"), ("price", PyValue.float 1)]) =
      ({ wProd with name := some (PyValue.str "N"),
                    description := some (PyValue.str "D") },
       some (PyError.dataValidation
         "Invalid type for boolean [available]: str")) :=
  deserialize_partial_mutation_on_bad_available wProd
    [("name", PyValue.str "N"), ("description", PyValue.str "D"),
     ("available", PyValue.str "true"), ("price", PyValue.float 1)]
    (PyValue.str "N") (PyValue.str "D") (PyValue.str "true")
    (by decide) (by decide) (by decide) (by decide)

/-! ### Claim C2 -/

/-- Claim C2: with an `id` on the entity, `update()` refuses to commit
a missing (`None`) or negative price, failing with
`DataValidationError("Price must be a positive number")` and leaving
the table unchanged, while `create()` enforces no such bound and
persists the same entity, price taken verbatim. -/
theorem update_price_check_create_unchecked (p : Product) (db : Db)
    (hid : (attrGet p.id).truthy = true)
    (hprice : attrGet p.price = PyValue.none ∨
      ∃ q : Rat, (attrGet p.price).toFloat? = some q ∧ q < 0)
    (hname : attrGet p.name ≠ PyValue.none) :
    Product.update p db =
      (db, some (PyError.dataValidation "Price must be a positive number")) ∧
    ∃ st db2, Product.create p db = Except.ok (st, db2) ∧
      attrGet st.price = attrGet p.price ∧ db2 = db ++ [st] := by
  constructor
  · rcases hprice with h | ⟨q, hq, hneg⟩
    · simp [Product.update, hid, h]
    · have hne : attrGet p.price ≠ PyValue.none := by
        intro hcon
        rw [hcon] at hq
        simp [PyValue.toFloat?] at hq
      simp [Product.update, hid, hne, hq, hneg]
  · simp only [Product.create]
    split
    · rename_i hcon
      exact absurd hcon hname
    · exact ⟨_, _, rfl, rfl, rfl⟩

/-- Witness for C2: the Widget row with price −1 has its update
rejected while create persists it. -/
theorem update_price_check_create_unchecked_witness :
    Product.update { wProd with price := some (PyValue.float (-1)) } ([] : Db) =
      (([] : Db), some (PyError.dataValidation "Price must be a positive number")) ∧
    ∃ st db2,
      Product.create { wProd with price := some (PyValue.float (-1)) } ([] : Db) =
        Except.ok (st, db2) ∧
      attrGet st.price =
        attrGet ({ wProd with price := some (PyValue.float (-1)) } : Product).price ∧
      db2 = ([] : Db) ++ [st] :=
  update_price_check_create_unchecked
    { wProd with price := some (PyValue.float (-1)) } ([] : Db)
    (by decide) (Or.inr ⟨-1, by decide, by decide⟩) (by decide)

/-! ### Claim C5 -/

/-- Claim C5: for every entity `x` whose `available` attribute holds a
boolean, deserializing `serialize(x)` into a fresh entity succeeds and
reproduces `x`'s `name`, `description`, `price` and `available`
attribute values exactly, while the fresh entity's `id` stays unset
(deserialize never sets it, although `serialize(x)` carries an `id`
key). -/
theorem serialize_deserialize_roundtrip (x : Product) (b : Bool)
    (h : attrGet x.available = PyValue.bool b) :
    (Product.deserialize ({} : Product)
        (DeserializeInput.mapping (Product.serialize x))).2 = Option.none ∧
    attrGet (Product.deserialize ({} : Product)
        (DeserializeInput.mapping (Product.serialize x))).1.name = attrGet x.name ∧
    attrGet (Product.deserialize ({} : Product)
        (DeserializeInput.mapping (Product.serialize x))).1.description
      = attrGet x.description ∧
    attrGet (Product.deserialize ({} : Product)
        (DeserializeInput.mapping (Product.serialize x))).1.price = attrGet x.price ∧
    attrGet (Product.deserialize ({} : Product)
        (DeserializeInput.mapping (Product.serialize x))).1.available
      = attrGet x.available ∧
    (Product.deserialize ({} : Product)
        (DeserializeInput.mapping (Product.serialize x))).1.id = Option.none := by
  have hser : Product.deserialize ({} : Product)
      (DeserializeInput.mapping (Product.serialize x)) =
      ({ id := Option.none, name := some (attrGet x.name)
         description := some (attrGet x.description)
         price := some (attrGet x.price)
         available := some (PyValue.bool b) }, Option.none) := by
    simp only [Product.serialize, h]
    rfl
  rw [hser]
  exact ⟨rfl, rfl, rfl, rfl, h.symm, rfl⟩

/-- Witness for C5: round-trip of the stored Widget row. -/
theorem serialize_deserialize_roundtrip_witness :
    (Product.deserialize ({} : Product)
        (DeserializeInput.mapping (Product.serialize wProd))).2 = Option.none ∧
    attrGet (Product.deserialize ({} : Product)
        (DeserializeInput.mapping (Product.serialize wProd))).1.name
      = attrGet wProd.name ∧
    attrGet (Product.deserialize ({} : Product)
        (DeserializeInput.mapping (Product.serialize wProd))).1.description
      = attrGet wProd.description ∧
    attrGet (Product.deserialize ({} : Product)
        (DeserializeInput.mapping (Product.serialize wProd))).1.price
      = attrGet wProd.price ∧
    attrGet (Product.deserialize ({} : Product)
        (DeserializeInput.mapping (Product.serialize wProd))).1.available
      = attrGet wProd.available ∧
    (Product.deserialize ({} : Product)
        (DeserializeInput.mapping (Product.serialize wProd))).1.id = Option.none :=
  serialize_deserialize_roundtrip wProd true (by decide)

/-! ### Claim C7 -/

/-- A stored row whose nullable `available` column holds NULL (its
Python-side column default fires only when no value was supplied at
flush, so an attribute explicitly set to `None` stores NULL). -/
def nullAvailRow : Product :=
  { id := some (PyValue.int 7), name := some (PyValue.str "Limbo")
    description := some PyValue.none, price := some (PyValue.float 1)
    available := some PyValue.none }

/-- Counterexample to C7 as stated: on a table whose single row has a
NULL `available` column, both availability queries are empty (SQL
equality never matches NULL), so the row is in neither result and the
result counts sum to 0, not to `len(all()) = 1`. -/
theorem find_by_availability_partition_cex :
    Product.find_by_availability [nullAvailRow] (PyValue.bool true) =
      Except.ok ([] : List Product) ∧
    Product.find_by_availability [nullAvailRow] (PyValue.bool false) =
      Except.ok ([] : List Product) ∧
    (Product.all [nullAvailRow]).length = 1 := by
  decide

/-- Claim C7, amended: for every stored table state in which each row's
`available` column holds a boolean (non-NULL), the results of
`find_by_availability(True)` and `find_by_availability(False)`
partition the table: each row is in exactly one of the two results and
the result counts sum to the length of `all()`. -/
theorem find_by_availability_partition (db : Db) (r : Product)
    (h : ∀ x ∈ db, ∃ b, attrGet x.available = PyValue.bool b)
    (hr : r ∈ Product.all db) :
    ∃ lt lf,
      Product.find_by_availability db (PyValue.bool true) = Except.ok lt ∧
      Product.find_by_availability db (PyValue.bool false) = Except.ok lf ∧
      lt.length + lf.length = (Product.all db).length ∧
      ((r ∈ lt ∧ ¬ r ∈ lf) ∨ (r ∈ lf ∧ ¬ r ∈ lt)) := by
  refine ⟨_, _, rfl, rfl, length_filter_available_split db h, ?_⟩
  obtain ⟨b, hb⟩ := h r hr
  cases b
  · right
    refine ⟨List.mem_filter.mpr ⟨hr, by simp [hb, sqlEq_bool]⟩, ?_⟩
    intro hmem
    have hpred := (List.mem_filter.mp hmem).2
    rw [hb] at hpred
    simp [sqlEq_bool] at hpred
  · left
    refine ⟨List.mem_filter.mpr ⟨hr, by simp [hb, sqlEq_bool]⟩, ?_⟩
    intro hmem
    have hpred := (List.mem_filter.mp hmem).2
    rw [hb] at hpred
    simp [sqlEq_bool] at hpred

/-- Witness for C7 on the spec's example table and its first row. -/
theorem find_by_availability_partition_witness :
    ∃ lt lf,
      Product.find_by_availability exampleDb (PyValue.bool true) = Except.ok lt ∧
      Product.find_by_availability exampleDb (PyValue.bool false) = Except.ok lf ∧
      lt.length + lf.length = (Product.all exampleDb).length ∧
      ((wProd ∈ lt ∧ ¬ wProd ∈ lf) ∨ (wProd ∈ lf ∧ ¬ wProd ∈ lt)) :=
  find_by_availability_partition exampleDb wProd (by decide)
    (by exact List.mem_cons_self _ _)

/-! ### Claim C8 -/

/-- Counterexample to C8 as stated: constructing a Product without an
`available` keyword leaves the `available` attribute unset — it reads
as Python `None`, not `True`; the column default is applied only when
`create()` flushes the INSERT, not at construction. -/
theorem construct_available_default_cex :
    attrGet (Product.construct [("name", PyValue.str "toothbrush")]).available
      ≠ PyValue.bool true ∧
    (Product.construct [("name", PyValue.str "toothbrush")]).available
      = Option.none := by
  decide

/-- Claim C8, amended: constructing with `available` omitted yields an
entity whose `available` attribute is unset (reads as `None`), with
`id` unset when not supplied and the other supplied fields taken
verbatim; the default `True` is applied when `create()` first persists
the entity, so the stored row has `available = True`. -/
theorem available_default_applied_at_create (kwargs : PyDict) (db : Db)
    (hA : dictGet kwargs "available" = Option.none)
    (hI : dictGet kwargs "id" = Option.none)
    (hN : ∃ v, dictGet kwargs "name" = some v ∧ v ≠ PyValue.none) :
    (Product.construct kwargs).available = Option.none ∧
    (Product.construct kwargs).id = Option.none ∧
    (Product.construct kwargs).name = dictGet kwargs "name" ∧
    (Product.construct kwargs).description = dictGet kwargs "description" ∧
    (Product.construct kwargs).price = dictGet kwargs "price" ∧
    ∃ st db2,
      Product.create (Product.construct kwargs) db = Except.ok (st, db2) ∧
      st.available = some (PyValue.bool true) := by
  obtain ⟨v, hv, hvne⟩ := hN
  refine ⟨hA, hI, rfl, rfl, rfl, ?_⟩
  simp only [Product.create]
  split
  · rename_i hcon
    have h2 : attrGet (dictGet kwargs "name") = PyValue.none := hcon
    rw [hv] at h2
    simp [attrGet] at h2
    exact absurd h2 hvne
  · refine ⟨_, _, rfl, ?_⟩
    have h3 : ({ Product.construct kwargs with id := some PyValue.none } : Product).available
        = Option.none := hA
    rw [h3]

/-! ### Claim C1 -/

/-- Args with all of `name`, `price`, `available` present, but with the
empty string as `name`. -/
def emptyNameArgs : PyDict :=
  [("name", PyValue.str ""), ("price", PyValue.float (mkRat 999 100)),
   ("available", PyValue.bool true)]

/-- Counterexample to C1 as stated: with `name`, `price` and
`available` all present in args but `name` the (falsy) empty string,
`find_by_args` skips the name filter: on the example table it returns
the two Widget rows although their name does not equal the args name,
and the intersection with `find_by_name` is empty. -/
theorem find_by_args_name_truthiness_cex :
    (dictGet emptyNameArgs "name").isSome = true ∧
    (dictGet emptyNameArgs "price").isSome = true ∧
    (dictGet emptyNameArgs "available").isSome = true ∧
    Product.find_by_args exampleDb emptyNameArgs = [wProd, wProd2] ∧
    sqlEq (attrGet wProd.name) (pyGet emptyNameArgs "name") = false ∧
    Product.find_by_name exampleDb (pyGet emptyNameArgs "name") = ([] : List Product) := by
  decide

/-- Claim C1, amended: for every table and every args mapping whose
`name` value is truthy (e.g. a non-empty string), whose `available`
value is a boolean, whose `price` value is present and not `None`, and
which carries no truthy `description`, `find_by_args(args)` returns
exactly the stored rows whose `name`, `price` and `available` columns
all equal the corresponding args values (AND semantics), equivalently
the intersection of `find_by_name`, `find_by_price` and
`find_by_availability`. -/
theorem find_by_args_and_semantics (db : Db) (args : PyDict) (r : Product)
    (hn : (pyGet args "name").truthy = true)
    (hd : (pyGet args "description").truthy = false)
    (ha : ∃ b, pyGet args "available" = PyValue.bool b)
    (hp : pyGet args "price" ≠ PyValue.none) :
    (r ∈ Product.find_by_args db args ↔
      (r ∈ db ∧ sqlEq (attrGet r.name) (pyGet args "name") = true ∧
       sqlEq (attrGet r.price) (pyGet args "price") = true ∧
       sqlEq (attrGet r.available) (pyGet args "available") = true)) ∧
    (r ∈ Product.find_by_args db args ↔
      (r ∈ Product.find_by_name db (pyGet args "name") ∧
       r ∈ Product.find_by_price db (pyGet args "price") ∧
       ∃ l, Product.find_by_availability db (pyGet args "available") = Except.ok l ∧
         r ∈ l)) := by
  obtain ⟨b, hb⟩ := ha
  have hanot : pyGet args "available" ≠ PyValue.none := by
    rw [hb]
    intro hc
    cases hc
  have hargs : Product.find_by_args db args =
      List.filter (fun x => sqlEq (attrGet x.price) (pyGet args "price"))
        (List.filter (fun x => sqlEq (attrGet x.available) (pyGet args "available"))
          (List.filter (fun x => sqlEq (attrGet x.name) (pyGet args "name")) db)) := by
    simp [Product.find_by_args, hn, hd, hanot, hp]
  constructor
  · rw [hargs]
    simp only [List.mem_filter]
    tauto
  · rw [hargs, hb]
    simp only [Product.find_by_name, Product.find_by_price,
      Product.find_by_availability, List.mem_filter, Except.ok.injEq,
      exists_eq_left']
    tauto

/-- Witness for C1 on the spec's example: `{name: Widget, price: 9.99,
available: True}` over the two-Widgets-one-Gadget table, at the first
Widget row. -/
theorem find_by_args_and_semantics_witness :
    (wProd ∈ Product.find_by_args exampleDb
        [("name", PyValue.str "Widget"), ("price", PyValue.float (mkRat 999 100)),
         ("available", PyValue.bool true)] ↔
      (wProd ∈ exampleDb ∧
       sqlEq (attrGet wProd.name)
         (pyGet [("name", PyValue.str "Widget"), ("price", PyValue.float (mkRat 999 100)),
           ("available", PyValue.bool true)] "name") = true ∧
       sqlEq (attrGet wProd.price)
         (pyGet [("name", PyValue.str "Widget"), ("price", PyValue.float (mkRat 999 100)),
           ("available", PyValue.bool true)] "price") = true ∧
       sqlEq (attrGet wProd.available)
         (pyGet [("name", PyValue.str "Widget"), ("price", PyValue.float (mkRat 999 100)),
           ("available", PyValue.bool true)] "available") = true)) ∧
    (wProd ∈ Product.find_by_args exampleDb
        [("name", PyValue.str "Widget"), ("price", PyValue.float (mkRat 999 100)),
         ("available", PyValue.bool true)] ↔
      (wProd ∈ Product.find_by_name exampleDb
         (pyGet [("name", PyValue.str "Widget"), ("price", PyValue.float (mkRat 999 100)),
           ("available", PyValue.bool true)] "name") ∧
       wProd ∈ Product.find_by_price exampleDb
         (pyGet [("name", PyValue.str "Widget"), ("price", PyValue.float (mkRat 999 100)),
           ("available", PyValue.bool true)] "price") ∧
       ∃ l, Product.find_by_availability exampleDb
           (pyGet [("name", PyValue.str "Widget"), ("price", PyValue.float (mkRat 999 100)),
             ("available", PyValue.bool true)] "available") = Except.ok l ∧
         wProd ∈ l)) :=
  find_by_args_and_semantics exampleDb
    [("name", PyValue.str "Widget"), ("price", PyValue.float (mkRat 999 100)),
     ("available", PyValue.bool true)] wProd
    (by decide) (by decide) ⟨true, by decide⟩ (by decide)

/-! ### Claim C6 -/

/-- Counterexample to C6 as stated: a `price` of 0 is NOT treated as an
absent filter — `find_by_args` tests `price` with `is not None`, so
`{price: 0}` filters on `price == 0` and excludes the 9.99 row instead
of returning the whole table. -/
theorem find_by_args_price_zero_cex :
    Product.find_by_args [wProd] [("price", PyValue.float 0)] =
      ([] : List Product) ∧
    Product.all [wProd] = [wProd] := by
  decide

/-- Claim C6, amended: in `find_by_args`, both `available` and `price`
are tested with explicit not-null checks (so `False` and `0` are valid
filter values), while `name` and `description` are tested by
truthiness, so an empty-string (or otherwise falsy) `name` or
`description` is treated as if absent and does not restrict the
result. -/
theorem find_by_args_guard_asymmetry (db : Db) (args : PyDict)
    (hn : (pyGet args "name").truthy = false)
    (hd : (pyGet args "description").truthy = false)
    (ha : pyGet args "available" ≠ PyValue.none)
    (hp : pyGet args "price" ≠ PyValue.none) :
    Product.find_by_args db args =
      List.filter (fun r =>
        sqlEq (attrGet r.available) (pyGet args "available") &&
        sqlEq (attrGet r.price) (pyGet args "price")) db := by
  simp [Product.find_by_args, hn, hd, ha, hp, List.filter_filter, Bool.and_comm]

/-- Witness for C6: empty-string `name` and `description`, `available`
False and `price` 0 — the falsy strings are ignored, the False/0
filters apply. -/
theorem find_by_args_guard_asymmetry_witness :
    Product.find_by_args exampleDb
      [("name", PyValue.str ""), ("description", PyValue.str ""),
       ("available", PyValue.bool false), ("price", PyValue.float 0)] =
      List.filter (fun r =>
        sqlEq (attrGet r.available)
          (pyGet [("name", PyValue.str ""), ("description", PyValue.str ""),
            ("available", PyValue.bool false), ("price", PyValue.float 0)] "available") &&
        sqlEq (attrGet r.price)
          (pyGet [("name", PyValue.str ""), ("description", PyValue.str ""),
            ("available", PyValue.bool false), ("price", PyValue.float 0)] "price"))
        exampleDb :=
  find_by_args_guard_asymmetry exampleDb
    [("name", PyValue.str ""), ("description", PyValue.str ""),
     ("available", PyValue.bool false), ("price", PyValue.float 0)]
    (by decide) (by decide) (by decide) (by decide)

/-! ### Claim C4 -/

/-- Python `isinstance(v, bool)`. -/
def isBool : PyValue → Bool
  | PyValue.bool _ => true
  | _ => false

/-- Claim C4: `deserialize(data)` fails with a `DataValidationError`
exactly when the input is not a mapping, or one of the keys `name`,
`description`, `available`, `price` is absent, or the value at key
`available` is not a boolean.  A missing key is reported as
"Invalid product: missing [key]" (the first missing key in the access
order name, description, available, with the boolean check on
`available` performed before `price` is read), a non-boolean
`available` as "Invalid type for boolean [available]: [type]"; on any
other mapping it succeeds and returns the entity with the four fields
taken from the mapping. -/
theorem deserialize_error_contract (p : Product) (m : PyDict) :
    ((Product.deserialize p DeserializeInput.notMapping).2.isSome = true) ∧
    ((Product.deserialize p (DeserializeInput.mapping m)).2 = Option.none ↔
      ((dictGet m "name").isSome = true ∧ (dictGet m "description").isSome = true ∧
       (dictGet m "price").isSome = true ∧ (dictGet m "available").isSome = true ∧
       isBool (pyGet m "available") = true)) ∧
    (dictGet m "name" = Option.none →
      (Product.deserialize p (DeserializeInput.mapping m)).2 =
        some (PyError.dataValidation "Invalid product: missing name")) ∧
    ((dictGet m "name").isSome = true → dictGet m "description" = Option.none →
      (Product.deserialize p (DeserializeInput.mapping m)).2 =
        some (PyError.dataValidation "Invalid product: missing description")) ∧
    ((dictGet m "name").isSome = true → (dictGet m "description").isSome = true →
      dictGet m "available" = Option.none →
      (Product.deserialize p (DeserializeInput.mapping m)).2 =
        some (PyError.dataValidation "Invalid product: missing available")) ∧
    ((dictGet m "name").isSome = true → (dictGet m "description").isSome = true →
      (dictGet m "available").isSome = true → isBool (pyGet m "available") = false →
      (Product.deserialize p (DeserializeInput.mapping m)).2 =
        some (PyError.dataValidation
          ("Invalid type for boolean [available]: " ++ (pyGet m "available").typeName))) ∧
    ((dictGet m "name").isSome = true → (dictGet m "description").isSome = true →
      (dictGet m "available").isSome = true → isBool (pyGet m "available") = true →
      dictGet m "price" = Option.none →
      (Product.deserialize p (DeserializeInput.mapping m)).2 =
        some (PyError.dataValidation "Invalid product: missing price")) ∧
    ((Product.deserialize p (DeserializeInput.mapping m)).2 = Option.none →
      (Product.deserialize p (DeserializeInput.mapping m)).1 =
        { p with name := dictGet m "name", description := dictGet m "description",
                 available := dictGet m "available", price := dictGet m "price" }) := by
  rcases hn : dictGet m "name" with _ | nv <;>
  rcases hd : dictGet m "description" with _ | dv <;>
  rcases ha : dictGet m "available" with _ | av <;>
  rcases hp : dictGet m "price" with _ | pv <;>
  first
    | (cases av <;> simp_all [Product.deserialize, pyGet, isBool, PyValue.typeName])
    | simp_all [Product.deserialize, pyGet, isBool]

/-- A well-formed deserialize payload. -/
def goodArgs : PyDict :=
  [("name", PyValue.str "N"), ("description", PyValue.str "D"),
   ("available", PyValue.bool false), ("price", PyValue.float (mkRat 1012 100))]

/-- Witness for C4: a mapping with all four keys and a boolean
`available` succeeds and mutates exactly the four fields. -/
theorem deserialize_error_contract_witness :
    (Product.deserialize wProd (DeserializeInput.mapping goodArgs)).2 = Option.none ∧
    (Product.deserialize wProd (DeserializeInput.mapping goodArgs)).1 =
      { wProd with name := dictGet goodArgs "name"
                   description := dictGet goodArgs "description"
                   available := dictGet goodArgs "available"
                   price := dictGet goodArgs "price" } := by
  have h := deserialize_error_contract wProd goodArgs
  have hs : (Product.deserialize wProd (DeserializeInput.mapping goodArgs)).2 =
      Option.none := h.2.1.mpr (by decide)
  exact ⟨hs, h.2.2.2.2.2.2.2 hs⟩

/-- Witness for C8: constructing `{name: "toothbrush"}` and creating it
on an empty table. -/
theorem available_default_applied_at_create_witness :
    (Product.construct [("name", PyValue.str "toothbrush")]).available = Option.none ∧
    (Product.construct [("name", PyValue.str "toothbrush")]).id = Option.none ∧
    (Product.construct [("name", PyValue.str "toothbrush")]).name =
      dictGet [("name", PyValue.str "toothbrush")] "name" ∧
    (Product.construct [("name", PyValue.str "toothbrush")]).description =
      dictGet [("name", PyValue.str "toothbrush")] "description" ∧
    (Product.construct [("name", PyValue.str "toothbrush")]).price =
      dictGet [("name", PyValue.str "toothbrush")] "price" ∧
    ∃ st db2,
      Product.create (Product.construct [("name", PyValue.str "toothbrush")])
        ([] : Db) = Except.ok (st, db2) ∧
      st.available = some (PyValue.bool true) :=
  available_default_applied_at_create [("name", PyValue.str "toothbrush")] ([] : Db)
    (by decide) (by decide) ⟨PyValue.str "toothbrush", by decide, by decide⟩
